import Mathlib

/-
Verification of basic_pipelines/ipcamera_detection_pipeline.py.

The file is glue over the GStreamer framework: it validates a model name
against a fixed registry, resolves a resource-file path, creates and
configures ten pipeline elements, links them in a fixed order, installs a
buffer probe and two bus observers, and drives a run loop with cleanup.

The embedding below follows the Python source line by line.  External
collaborators (the element factory, the filesystem, link success) are
parameters: a factory availability function decides whether a GStreamer
element kind can be instantiated, a filesystem function decides whether a
path exists, and a link function decides whether two elements link.
-/

namespace IPCam

/-- Property values stored on a GStreamer element (strings, integers,
booleans cover every set_property call of the source file). -/
inductive PropVal where
  | str (s : String)
  | int (n : Int)
  | bool (b : Bool)
deriving DecidableEq, Repr

/-- Python exceptions raised by the source file: ValueError (bad model
name), RuntimeError with its message, and the AttributeError that results
from calling set_property on a None element handle. -/
inductive PyError where
  | valueError (msg : String)
  | runtimeError (msg : String)
  | attributeError
deriving DecidableEq, Repr

/-- An opaque GStreamer element handle: its factory kind, its name in the
pipeline, and the properties set on it (most recent first; reads take the
first match, matching dict-overwrite semantics). -/
structure Element where
  kind : String
  name : String
  props : List (String × PropVal)
deriving DecidableEq, Repr

/-- Element.set_property: push the new value; lookup reads the most
recent write first. -/
def setPropEl (e : Element) (k : String) (v : PropVal) : Element :=
  { e with props := (k, v) :: e.props }

/-- Read a property back from an element. -/
def getProp (e : Element) (k : String) : Option PropVal :=
  e.props.lookup k

/-- Gst.ElementFactory.make: returns an element handle when the kind is
available in the installed framework, otherwise None. -/
def make (avail : String → Bool) (kind name : String) : Option Element :=
  if avail kind then some { kind := kind, name := name, props := [] } else none

/-- Python attribute access on a possibly-None element: calling
set_property on None raises AttributeError, mirroring
`self.src.set_property(...)` when ElementFactory.make returned None. -/
def set_property (e : Option Element) (k : String) (v : PropVal) :
    Except PyError Element :=
  match e with
  | none => Except.error PyError.attributeError
  | some el => Except.ok (setPropEl el k v)

/-- HAILO8_MODELS of the source, an insertion-ordered dict. -/
def HAILO8_MODELS : List (String × String) :=
  [("yolov5m", "resources/yolov5m_wo_spp.hef"),
   ("yolov8s", "resources/yolov8s.hef"),
   ("yolov8m", "resources/yolov8m.hef"),
   ("yolov6n", "resources/yolov6n.hef")]

/-- HAILO8L_MODELS of the source, an insertion-ordered dict. -/
def HAILO8L_MODELS : List (String × String) :=
  [("yolov8s", "resources/yolov8s_h8l.hef"),
   ("yolov6n", "resources/yolov6n.hef"),
   ("yolox_s", "resources/yolox_s_leaky_h8l_mz.hef")]

/-- `models = HAILO8L_MODELS if is_hailo8l else HAILO8_MODELS`. -/
def selectModels (is_hailo8l : Bool) : List (String × String) :=
  if is_hailo8l then HAILO8L_MODELS else HAILO8_MODELS

/-- `', '.join(models.keys())` in dict insertion order. -/
def availableModels (models : List (String × String)) : String :=
  String.intercalate (", ") (models.map Prod.fst)

/-- os.path.join for an absolute directory and a relative second
component, as used at `os.path.join(resources_dir, models[model_name])`. -/
def os_path_join (a b : String) : String :=
  a ++ ("/" ++ b)

/-- Camera URL hard-coded in create_elements. -/
def cameraUrl : String :=
  "http://14.160.87.118:82/cgi-bin/camera?resolution=640&quality=1&Language=0&1733285069"

/-- Caps string hard-coded in create_elements. -/
def capsString : String :=
  "video/x-raw,format=RGB,width=640,height=480"

/-- Record of the ten element handles held as attributes after
create_elements has created and configured them.  jpegdec, videoconvert and
videoscale receive no property writes, so a None handle for them survives
until verify_elements; they stay Option-valued. -/
structure Elements where
  src : Element
  jpegdec : Option Element
  videoconvert : Option Element
  videoscale : Option Element
  capsfilter : Element
  queue1 : Element
  queue2 : Element
  hailonet : Element
  hailofilter : Element
  sink : Element
deriving DecidableEq, Repr

/-- Creation-and-configuration phase of create_elements, line by line.
Each ElementFactory.make may return None; the first set_property on a None
handle raises AttributeError; hailonet and hailofilter alone are checked
explicitly and raise a RuntimeError naming the stage. -/
def create_elements_raw (avail : String → Bool) (hef_path : String) :
    Except PyError Elements := do
  let src0 := make avail ("souphttpsrc") ("source")
  let src1 ← set_property src0 ("location") (PropVal.str cameraUrl)
  let src2 ← set_property (some src1) ("timeout") (PropVal.int 5)
  let src ← set_property (some src2) ("retries") (PropVal.int 3)
  let jpegdec := make avail ("jpegdec") ("jpeg-decoder")
  let videoconvert := make avail ("videoconvert") ("converter")
  let videoscale := make avail ("videoscale") ("scaler")
  let queue1x := make avail ("queue") ("queue1")
  let queue2x := make avail ("queue") ("queue2")
  let q1a ← set_property queue1x ("max-size-buffers") (PropVal.int 10)
  let q1b ← set_property (some q1a) ("max-size-time") (PropVal.int 0)
  let queue1 ← set_property (some q1b) ("max-size-bytes") (PropVal.int 0)
  let q2a ← set_property queue2x ("max-size-buffers") (PropVal.int 10)
  let q2b ← set_property (some q2a) ("max-size-time") (PropVal.int 0)
  let queue2 ← set_property (some q2b) ("max-size-bytes") (PropVal.int 0)
  let capsfilter0 := make avail ("capsfilter") ("capsfilter")
  let capsfilter ← set_property capsfilter0 ("caps") (PropVal.str capsString)
  let hailonet0 ← match make avail ("hailonet") ("hailonet") with
    | none => Except.error (PyError.runtimeError
        ("Could not create hailonet element. Make sure Hailo GStreamer plugins are installed."))
    | some e => Except.ok e
  let hailofilter ← match make avail ("hailofilter") ("hailofilter") with
    | none => Except.error (PyError.runtimeError
        ("Could not create hailofilter element. Make sure Hailo GStreamer plugins are installed."))
    | some e => Except.ok e
  let hailonet1 ← set_property (some hailonet0) ("hef-path") (PropVal.str hef_path)
  let hailonet ← set_property (some hailonet1) ("batch-size") (PropVal.int 1)
  let sink0 := make avail ("autovideosink") ("sink")
  let sink ← set_property sink0 ("sync") (PropVal.bool false)
  Except.ok { src := src, jpegdec := jpegdec, videoconvert := videoconvert,
              videoscale := videoscale, capsfilter := capsfilter,
              queue1 := queue1, queue2 := queue2, hailonet := hailonet,
              hailofilter := hailofilter, sink := sink }

/-- elements list of verify_elements, in its source order. -/
def elementsList (e : Elements) : List (Option Element) :=
  [some e.src, e.jpegdec, e.videoconvert, e.videoscale,
   some e.capsfilter, some e.queue1, some e.queue2,
   some e.hailonet, some e.hailofilter, some e.sink]

/-- verify_elements: walk the element list; a falsy (None) element raises
RuntimeError whose f-string interpolates the None value itself, producing
the literal message "Could not create None"; each truthy element is added
to the pipeline in order. -/
def verify_elements : List (Option Element) → Except PyError (List Element)
  | [] => Except.ok []
  | none :: _ => Except.error (PyError.runtimeError ("Could not create None"))
  | some e :: rest => do
      let r ← verify_elements rest
      Except.ok (e :: r)

/-- Fixed pairwise link order of add_and_link_elements, by element name. -/
def linkOrder : List (String × String) :=
  [(("source"), ("jpeg-decoder")),
   (("jpeg-decoder"), ("converter")),
   (("converter"), ("scaler")),
   (("scaler"), ("capsfilter")),
   (("capsfilter"), ("queue1")),
   (("queue1"), ("hailonet")),
   (("hailonet"), ("hailofilter")),
   (("hailofilter"), ("queue2")),
   (("queue2"), ("sink"))]

/-- add_and_link_elements: attempts every pairwise link in the fixed order;
Element.link returns a boolean and raises nothing, so the surrounding
try/except never fires and every link is attempted in sequence. -/
def add_and_link_elements (linkOk : String → String → Bool) :
    List (String × String × Bool) :=
  linkOrder.map (fun p => (p.1, p.2, linkOk p.1 p.2))

/-- Process-wide side effects observed during construction: whether
Gst.init(None) ran and whether a Gst.Pipeline object was created. -/
structure Effects where
  gstInitCalled : Bool
  pipelineCreated : Bool
deriving DecidableEq, Repr

/-- The constructed application object: the resolved hef path, the
elements added to the pipeline container in add order, the link attempts
in link order, the element attribute record, and the probe and bus
registrations performed at the end of the constructor. -/
structure App where
  hef_path : String
  pipelineElements : List Element
  links : List (String × String × Bool)
  elems : Elements
  probeAdded : Bool
  busErrorConnected : Bool
  busEosConnected : Bool
deriving DecidableEq, Repr

/-- GStreamerIPCameraApp.__init__ followed line by line.  Parameters model
the externals: fs is os.path.exists, avail is plugin availability for
ElementFactory.make, linkOk is Element.link success, and resources_dir is
the directory the source computes from its own file location
(os.path.join(os.path.dirname(current_dir), "resources")).  The returned
Effects record whether Gst.init and Gst.Pipeline() were reached. -/
def ipcInit (fs : String → Bool) (avail : String → Bool)
    (linkOk : String → String → Bool) (resources_dir : String)
    (model_name : String) (is_hailo8l : Bool) :
    Except PyError App × Effects :=
  let models := selectModels is_hailo8l
  match models.lookup model_name with
  | none =>
      (Except.error (PyError.valueError
        (("Model ") ++ model_name ++ (" not found. Available models: ")
          ++ availableModels models)),
       { gstInitCalled := false, pipelineCreated := false })
  | some rel =>
      let hef_path := os_path_join resources_dir rel
      if fs hef_path = false then
        (Except.error (PyError.runtimeError
           (("HEF file not found at ") ++ hef_path)),
         { gstInitCalled := false, pipelineCreated := false })
      else
        -- Gst.init(None) and Gst.Pipeline() happen here, before
        -- create_elements; every later failure leaves them done.
        let eff : Effects := { gstInitCalled := true, pipelineCreated := true }
        match create_elements_raw avail hef_path with
        | Except.error e => (Except.error e, eff)
        | Except.ok elems =>
            match verify_elements (elementsList elems) with
            | Except.error e => (Except.error e, eff)
            | Except.ok added =>
                let links := add_and_link_elements linkOk
                (Except.ok { hef_path := hef_path,
                             pipelineElements := added,
                             links := links,
                             elems := elems,
                             probeAdded := true,
                             busErrorConnected := true,
                             busEosConnected := true }, eff)

/-- Coarse Gst pipeline states the source touches. -/
inductive GstState where
  | null
  | playing
deriving DecidableEq, Repr

/-- Runtime state of the application: pipeline state, whether the loop
attribute exists (hasattr(self, "loop")), whether the loop is running, and
a count of cleanup invocations (instrumentation for the exactly-once
property; the code itself keeps no such counter). -/
structure RunState where
  pipelineState : GstState
  loopExists : Bool
  loopRunning : Bool
  cleanupCount : Nat
deriving DecidableEq, Repr

/-- State after construction, before run(): pipeline in NULL, no loop
attribute yet. -/
def initialRunState : RunState :=
  { pipelineState := GstState.null, loopExists := false,
    loopRunning := false, cleanupCount := 0 }

/-- GStreamerIPCameraApp.cleanup: sets the pipeline to NULL, and quits the
loop only when the loop attribute exists and the loop is running.  Total
function: no statement of the body can raise. -/
def cleanup (s : RunState) : RunState :=
  let s1 : RunState :=
    { s with pipelineState := GstState.null,
             cleanupCount := s.cleanupCount + 1 }
  if s1.loopExists && s1.loopRunning then
    { s1 with loopRunning := false }
  else s1

/-- on_error bus handler: parse and log the error, then self.cleanup()
followed by self.loop.quit(). -/
def on_error (s : RunState) : RunState :=
  let s1 := cleanup s
  { s1 with loopRunning := false }

/-- on_eos bus handler: log end of stream, then self.cleanup() followed by
self.loop.quit(). -/
def on_eos (s : RunState) : RunState :=
  let s1 := cleanup s
  { s1 with loopRunning := false }

/-- Terminating occurrence of run's blocking event loop: a bus error
message, an end-of-stream message, an external quit of the loop, or an
exception escaping loop.run(). -/
inductive LoopEvent where
  | busError (msg debug : String)
  | busEos
  | externalQuit
  | loopException (msg : String)
deriving DecidableEq, Repr

/-- GStreamerIPCameraApp.run: set the pipeline PLAYING (raising
RuntimeError when the framework rejects the transition, before the loop
attribute is created), create and enter the main loop, dispatch the
terminating event, and run cleanup in the finally block on every exit of
the loop.  Returns the final state and either normal return or the
propagated exception. -/
def run (stateChangeOk : Bool) (ev : LoopEvent) (s : RunState) :
    RunState × Except String Unit :=
  if stateChangeOk = false then
    (s, Except.error ("Unable to set the pipeline to the playing state"))
  else
    let s1 : RunState :=
      { s with pipelineState := GstState.playing,
               loopExists := true, loopRunning := true }
    match ev with
    | LoopEvent.busError _ _ =>
        let s2 := on_error s1
        (cleanup s2, Except.ok ())
    | LoopEvent.busEos =>
        let s2 := on_eos s1
        (cleanup s2, Except.ok ())
    | LoopEvent.externalQuit =>
        let s2 : RunState := { s1 with loopRunning := false }
        (cleanup s2, Except.ok ())
    | LoopEvent.loopException msg =>
        let s2 : RunState := { s1 with loopRunning := false }
        (cleanup s2, Except.error (("Pipeline error: ") ++ msg))

/-- C1: for every modelName not a key of the registry selected by the
hardware-variant flag (HAILO8L_MODELS when the lite variant is selected,
HAILO8_MODELS otherwise), construction fails with a ValueError whose
message lists exactly the valid model names of that registry; in
particular, constructing with modelName yolov5m and the lite variant fails
naming yolov8s, yolov6n, yolox_s as available. -/
theorem construct_invalid_model_rejected
    (fs avail : String → Bool) (linkOk : String → String → Bool)
    (rd model_name : String) (b : Bool)
    (h : (selectModels b).lookup model_name = none) :
    (ipcInit fs avail linkOk rd model_name b).1 =
      Except.error (PyError.valueError
        (("Model ") ++ model_name ++ (" not found. Available models: ")
          ++ availableModels (selectModels b)))
    ∧ (ipcInit fs avail linkOk rd ("yolov5m") true).1 =
      Except.error (PyError.valueError
        ("Model yolov5m not found. Available models: yolov8s, yolov6n, yolox_s")) := by
  constructor
  · simp only [ipcInit, h]
  · rfl

/-- Witness for construct_invalid_model_rejected at modelName yolov5m with
the lite variant. -/
theorem construct_invalid_model_rejected_witness :
    (ipcInit (fun _ => true) (fun _ => true) (fun _ _ => true)
        ("/install") ("yolov5m") true).1 =
      Except.error (PyError.valueError
        (("Model ") ++ ("yolov5m") ++ (" not found. Available models: ")
          ++ availableModels (selectModels true)))
    ∧ (ipcInit (fun _ => true) (fun _ => true) (fun _ _ => true)
        ("/install") ("yolov5m") true).1 =
      Except.error (PyError.valueError
        ("Model yolov5m not found. Available models: yolov8s, yolov6n, yolox_s")) :=
  construct_invalid_model_rejected (fun _ => true) (fun _ => true)
    (fun _ _ => true) ("/install") ("yolov5m") true (by decide)

/-- C2: for every modelName that is a key of the selected registry but
whose resolved resource file does not exist on disk at construction time,
construction fails with a RuntimeError (HEF file not found) and no
pipeline object is produced. -/
theorem construct_missing_file_rejected
    (fs avail : String → Bool) (linkOk : String → String → Bool)
    (rd model_name rel : String) (b : Bool)
    (h1 : (selectModels b).lookup model_name = some rel)
    (h2 : fs (os_path_join rd rel) = false) :
    (ipcInit fs avail linkOk rd model_name b).1 =
      Except.error (PyError.runtimeError
        (("HEF file not found at ") ++ os_path_join rd rel))
    ∧ (ipcInit fs avail linkOk rd model_name b).2.pipelineCreated = false := by
  simp only [ipcInit, h1, h2]
  exact ⟨rfl, rfl⟩

/-- Witness for construct_missing_file_rejected: yolov5m on the standard
variant with an empty filesystem. -/
theorem construct_missing_file_rejected_witness :
    (ipcInit (fun _ => false) (fun _ => true) (fun _ _ => true)
        ("/install") ("yolov5m") false).1 =
      Except.error (PyError.runtimeError
        (("HEF file not found at ")
          ++ os_path_join ("/install") ("resources/yolov5m_wo_spp.hef")))
    ∧ (ipcInit (fun _ => false) (fun _ => true) (fun _ _ => true)
        ("/install") ("yolov5m") false).2.pipelineCreated = false :=
  construct_missing_file_rejected (fun _ => false) (fun _ => true)
    (fun _ _ => true) ("/install") ("yolov5m")
    ("resources/yolov5m_wo_spp.hef") false (by decide) (by decide)

/-- Element record produced by create_elements_raw when every element kind
is available (characterized by create_elements_raw_all below). -/
def allAvailElements (hef : String) : Elements :=
  { src := { kind := ("souphttpsrc"), name := ("source"),
             props := [(("retries"), PropVal.int 3),
                       (("timeout"), PropVal.int 5),
                       (("location"), PropVal.str cameraUrl)] },
    jpegdec := some { kind := ("jpegdec"), name := ("jpeg-decoder"), props := [] },
    videoconvert := some { kind := ("videoconvert"), name := ("converter"), props := [] },
    videoscale := some { kind := ("videoscale"), name := ("scaler"), props := [] },
    capsfilter := { kind := ("capsfilter"), name := ("capsfilter"),
                    props := [(("caps"), PropVal.str capsString)] },
    queue1 := { kind := ("queue"), name := ("queue1"),
                props := [(("max-size-bytes"), PropVal.int 0),
                          (("max-size-time"), PropVal.int 0),
                          (("max-size-buffers"), PropVal.int 10)] },
    queue2 := { kind := ("queue"), name := ("queue2"),
                props := [(("max-size-bytes"), PropVal.int 0),
                          (("max-size-time"), PropVal.int 0),
                          (("max-size-buffers"), PropVal.int 10)] },
    hailonet := { kind := ("hailonet"), name := ("hailonet"),
                  props := [(("batch-size"), PropVal.int 1),
                            (("hef-path"), PropVal.str hef)] },
    hailofilter := { kind := ("hailofilter"), name := ("hailofilter"), props := [] },
    sink := { kind := ("autovideosink"), name := ("sink"),
              props := [(("sync"), PropVal.bool false)] } }

theorem create_elements_raw_all (hef : String) :
    create_elements_raw (fun _ => true) hef =
      Except.ok (allAvailElements hef) := rfl

/-- App value produced by a fully successful construction (all kinds
available, all links succeed), as a function of the resolved hef path. -/
def allAvailApp (hef : String) : App :=
  { hef_path := hef,
    pipelineElements :=
      ((allAvailElements hef).src) ::
      ({ kind := ("jpegdec"), name := ("jpeg-decoder"), props := [] } : Element) ::
      ({ kind := ("videoconvert"), name := ("converter"), props := [] } : Element) ::
      ({ kind := ("videoscale"), name := ("scaler"), props := [] } : Element) ::
      ((allAvailElements hef).capsfilter) ::
      ((allAvailElements hef).queue1) ::
      ((allAvailElements hef).queue2) ::
      ((allAvailElements hef).hailonet) ::
      ((allAvailElements hef).hailofilter) ::
      [((allAvailElements hef).sink)],
    links := linkOrder.map (fun p => (p.1, p.2, true)),
    elems := allAvailElements hef,
    probeAdded := true,
    busErrorConnected := true,
    busEosConnected := true }

theorem ipcInit_all_ok (fs : String → Bool) (rd model_name rel : String)
    (b : Bool)
    (h1 : (selectModels b).lookup model_name = some rel)
    (h2 : fs (os_path_join rd rel) = true) :
    ipcInit fs (fun _ => true) (fun _ _ => true) rd model_name b =
      (Except.ok (allAvailApp (os_path_join rd rel)),
       { gstInitCalled := true, pipelineCreated := true }) := by
  simp only [ipcInit, h1, h2]
  rfl

/-- C3: given a valid model name and an existing resource file (and the
framework able to instantiate every element kind and link every pair),
construction succeeds and yields an assembled pipeline containing exactly
10 stages, linked pairwise in the fixed order source, jpeg-decoder,
converter, scaler, capsfilter, queue1 (ingress), hailonet, hailofilter,
queue2 (egress), sink. -/
theorem construct_success_assembles_ten_stages
    (fs avail : String → Bool) (linkOk : String → String → Bool)
    (rd model_name rel : String) (b : Bool)
    (h1 : (selectModels b).lookup model_name = some rel)
    (h2 : fs (os_path_join rd rel) = true)
    (h3 : ∀ k, avail k = true)
    (h4 : ∀ a c, linkOk a c = true) :
    ∃ app, (ipcInit fs avail linkOk rd model_name b).1 = Except.ok app
      ∧ app.pipelineElements.length = 10
      ∧ app.links =
          [(("source"), ("jpeg-decoder"), true),
           (("jpeg-decoder"), ("converter"), true),
           (("converter"), ("scaler"), true),
           (("scaler"), ("capsfilter"), true),
           (("capsfilter"), ("queue1"), true),
           (("queue1"), ("hailonet"), true),
           (("hailonet"), ("hailofilter"), true),
           (("hailofilter"), ("queue2"), true),
           (("queue2"), ("sink"), true)] := by
  have ha : avail = fun _ => true := funext h3
  have hb : linkOk = fun _ _ => true := funext fun a => funext fun c => h4 a c
  subst ha hb
  refine ⟨allAvailApp (os_path_join rd rel), ?_, rfl, rfl⟩
  rw [ipcInit_all_ok fs rd model_name rel b h1 h2]

/-- Witness for construct_success_assembles_ten_stages at yolov5m on the
standard variant with everything available. -/
theorem construct_success_assembles_ten_stages_witness :
    ∃ app, (ipcInit (fun _ => true) (fun _ => true) (fun _ _ => true)
        ("/install") ("yolov5m") false).1 = Except.ok app
      ∧ app.pipelineElements.length = 10
      ∧ app.links =
          [(("source"), ("jpeg-decoder"), true),
           (("jpeg-decoder"), ("converter"), true),
           (("converter"), ("scaler"), true),
           (("scaler"), ("capsfilter"), true),
           (("capsfilter"), ("queue1"), true),
           (("queue1"), ("hailonet"), true),
           (("hailonet"), ("hailofilter"), true),
           (("hailofilter"), ("queue2"), true),
           (("queue2"), ("sink"), true)] :=
  construct_success_assembles_ten_stages (fun _ => true) (fun _ => true)
    (fun _ _ => true) ("/install") ("yolov5m")
    ("resources/yolov5m_wo_spp.hef") false (by decide) (by decide)
    (fun _ => rfl) (fun _ _ => rfl)

/-- C4: for every install directory, model name and hardware variant with
which construction succeeds, both queue stages carry a buffer-count cap of
exactly 10 and byte and time caps of 0 (disabled). -/
theorem queues_capped_at_ten
    (rd model_name : String) (b : Bool) (app : App)
    (h : (ipcInit (fun _ => true) (fun _ => true) (fun _ _ => true)
            rd model_name b).1 = Except.ok app) :
    getProp app.elems.queue1 ("max-size-buffers") = some (PropVal.int 10)
    ∧ getProp app.elems.queue1 ("max-size-bytes") = some (PropVal.int 0)
    ∧ getProp app.elems.queue1 ("max-size-time") = some (PropVal.int 0)
    ∧ getProp app.elems.queue2 ("max-size-buffers") = some (PropVal.int 10)
    ∧ getProp app.elems.queue2 ("max-size-bytes") = some (PropVal.int 0)
    ∧ getProp app.elems.queue2 ("max-size-time") = some (PropVal.int 0) := by
  cases hl : (selectModels b).lookup model_name with
  | none =>
      simp only [ipcInit, hl] at h
      exact absurd h (by simp)
  | some rel =>
      rw [ipcInit_all_ok (fun _ => true) rd model_name rel b hl rfl] at h
      simp only [Except.ok.injEq] at h
      subst h
      exact ⟨rfl, rfl, rfl, rfl, rfl, rfl⟩

/-- Witness for queues_capped_at_ten at yolov5m on the standard variant. -/
theorem queues_capped_at_ten_witness :
    getProp (allAvailApp (os_path_join ("/install")
        ("resources/yolov5m_wo_spp.hef"))).elems.queue1
        ("max-size-buffers") = some (PropVal.int 10)
    ∧ getProp (allAvailApp (os_path_join ("/install")
        ("resources/yolov5m_wo_spp.hef"))).elems.queue1
        ("max-size-bytes") = some (PropVal.int 0)
    ∧ getProp (allAvailApp (os_path_join ("/install")
        ("resources/yolov5m_wo_spp.hef"))).elems.queue1
        ("max-size-time") = some (PropVal.int 0)
    ∧ getProp (allAvailApp (os_path_join ("/install")
        ("resources/yolov5m_wo_spp.hef"))).elems.queue2
        ("max-size-buffers") = some (PropVal.int 10)
    ∧ getProp (allAvailApp (os_path_join ("/install")
        ("resources/yolov5m_wo_spp.hef"))).elems.queue2
        ("max-size-bytes") = some (PropVal.int 0)
    ∧ getProp (allAvailApp (os_path_join ("/install")
        ("resources/yolov5m_wo_spp.hef"))).elems.queue2
        ("max-size-time") = some (PropVal.int 0) :=
  queues_capped_at_ten ("/install") ("yolov5m") false
    (allAvailApp (os_path_join ("/install")
      ("resources/yolov5m_wo_spp.hef"))) (by rfl)

/-- C9: constructing with modelName yolov5m and the standard hardware
variant resolves the model path to the file resources/yolov5m_wo_spp.hef
under the installation directory the code resolves against, and exactly
that path is stored in the accelerator stage's hef-path property, together
with a batch-size of 1. -/
theorem yolov5m_standard_resolves_path (rd : String) :
    ∃ app, (ipcInit (fun _ => true) (fun _ => true) (fun _ _ => true)
        rd ("yolov5m") false).1 = Except.ok app
      ∧ app.hef_path = rd ++ ("/resources/yolov5m_wo_spp.hef")
      ∧ getProp app.elems.hailonet ("hef-path")
          = some (PropVal.str app.hef_path)
      ∧ getProp app.elems.hailonet ("batch-size") = some (PropVal.int 1) := by
  refine ⟨allAvailApp (os_path_join rd ("resources/yolov5m_wo_spp.hef")),
    ?_, ?_, rfl, rfl⟩
  · rw [ipcInit_all_ok (fun _ => true) rd ("yolov5m")
      ("resources/yolov5m_wo_spp.hef") false (by decide) rfl]
  · show rd ++ (("/") ++ ("resources/yolov5m_wo_spp.hef"))
        = rd ++ ("/resources/yolov5m_wo_spp.hef")
    exact congrArg (fun s => rd ++ s) (by decide)

/-- Check whether one character sequence stands at the head of another. -/
def beginsWith : List Char → List Char → Bool
  | _, [] => true
  | [], _ :: _ => false
  | a :: as, b :: bs => a == b && beginsWith as bs

/-- Check whether a character sequence occurs anywhere inside another
(used to state that an error message does or does not name a stage). -/
def containsSeq (needle : List Char) : List Char → Bool
  | [] => beginsWith [] needle
  | h :: t => beginsWith (h :: t) needle || containsSeq needle t

/-- C5 counterexample: when the framework cannot instantiate the JPEG
decoder, assembly does fail, but with the message Could not create None,
which names neither the stage name jpeg-decoder nor the kind jpegdec (the
f-string interpolates the None handle, not the stage), so the claim that
every stage failure produces an error naming the failed stage is false. -/
theorem stage_failure_unnamed_counterexample :
    (ipcInit (fun _ => true) (fun k => !(k == ("jpegdec")))
        (fun _ _ => true) ("/install") ("yolov5m") false).1 =
      Except.error (PyError.runtimeError ("Could not create None"))
    ∧ containsSeq (("jpeg-decoder").toList)
        (("Could not create None").toList) = false
    ∧ containsSeq (("jpegdec").toList)
        (("Could not create None").toList) = false := by
  exact ⟨rfl, by decide, by decide⟩

/-- C5 amended: a stage the framework cannot instantiate always makes
assembly fail fast with no retry, but only the two accelerator stages
(hailonet, hailofilter) fail with an error naming the stage; the decoder,
converter and scaler stages fail later with the generic message Could not
create None, and the source, queue, caps-filter and sink stages fail with
an AttributeError raised by configuring the null handle. -/
theorem stage_creation_failfast_per_kind :
    (ipcInit (fun _ => true) (fun k => !(k == ("souphttpsrc")))
        (fun _ _ => true) ("/install") ("yolov5m") false).1 =
      Except.error PyError.attributeError
    ∧ (ipcInit (fun _ => true) (fun k => !(k == ("jpegdec")))
        (fun _ _ => true) ("/install") ("yolov5m") false).1 =
      Except.error (PyError.runtimeError ("Could not create None"))
    ∧ (ipcInit (fun _ => true) (fun k => !(k == ("videoconvert")))
        (fun _ _ => true) ("/install") ("yolov5m") false).1 =
      Except.error (PyError.runtimeError ("Could not create None"))
    ∧ (ipcInit (fun _ => true) (fun k => !(k == ("videoscale")))
        (fun _ _ => true) ("/install") ("yolov5m") false).1 =
      Except.error (PyError.runtimeError ("Could not create None"))
    ∧ (ipcInit (fun _ => true) (fun k => !(k == ("queue")))
        (fun _ _ => true) ("/install") ("yolov5m") false).1 =
      Except.error PyError.attributeError
    ∧ (ipcInit (fun _ => true) (fun k => !(k == ("capsfilter")))
        (fun _ _ => true) ("/install") ("yolov5m") false).1 =
      Except.error PyError.attributeError
    ∧ (ipcInit (fun _ => true) (fun k => !(k == ("hailonet")))
        (fun _ _ => true) ("/install") ("yolov5m") false).1 =
      Except.error (PyError.runtimeError
        ("Could not create hailonet element. Make sure Hailo GStreamer plugins are installed."))
    ∧ (ipcInit (fun _ => true) (fun k => !(k == ("hailofilter")))
        (fun _ _ => true) ("/install") ("yolov5m") false).1 =
      Except.error (PyError.runtimeError
        ("Could not create hailofilter element. Make sure Hailo GStreamer plugins are installed."))
    ∧ (ipcInit (fun _ => true) (fun k => !(k == ("autovideosink")))
        (fun _ _ => true) ("/install") ("yolov5m") false).1 =
      Except.error PyError.attributeError := by
  exact ⟨rfl, rfl, rfl, rfl, rfl, rfl, rfl, rfl, rfl⟩

/-- C6 counterexample: on the bus-error exit path of run, cleanup runs
twice, once inside the on_error handler and once in the finally block, so
it does not run exactly once on every exit path. -/
theorem cleanup_twice_on_bus_error :
    ((run true (LoopEvent.busError ("e") ("d"))
        initialRunState).1.cleanupCount = 2)
    ∧ ((run true LoopEvent.busEos initialRunState).1.cleanupCount = 2) := by
  exact ⟨rfl, rfl⟩

/-- C6 amended: on every exit of run's event loop cleanup runs at least
once; it runs exactly once on a normal (externally quit) or exceptional
exit, and exactly twice on the bus-error and end-of-stream exits, where
the bus handler already invoked it before the finally block runs. -/
theorem cleanup_count_per_exit_path (ev : LoopEvent) :
    1 ≤ (run true ev initialRunState).1.cleanupCount
    ∧ (run true ev initialRunState).1.cleanupCount =
        (match ev with
         | LoopEvent.busError _ _ => 2
         | LoopEvent.busEos => 2
         | LoopEvent.externalQuit => 1
         | LoopEvent.loopException _ => 1) := by
  cases ev <;> first
    | exact ⟨one_le_two, rfl⟩
    | exact ⟨Nat.le_refl 1, rfl⟩

/-- C7: cleanup never raises (it is a total function of the state), sends
the pipeline to the null state from any starting state, stops the run
loop only when the loop attribute exists and the loop is running, and
applying it twice leaves exactly the observable state a single
application leaves. -/
theorem cleanup_idempotent_and_safe (s : RunState) :
    (cleanup s).pipelineState = GstState.null
    ∧ (cleanup s).loopExists = s.loopExists
    ∧ (cleanup s).loopRunning = (s.loopRunning && !s.loopExists)
    ∧ (cleanup (cleanup s)).pipelineState = (cleanup s).pipelineState
    ∧ (cleanup (cleanup s)).loopExists = (cleanup s).loopExists
    ∧ (cleanup (cleanup s)).loopRunning = (cleanup s).loopRunning := by
  obtain ⟨ps, le, lr, c⟩ := s
  cases le <;> cases lr <;> exact ⟨rfl, rfl, rfl, rfl, rfl, rfl⟩

/-- C8: a bus error delivered while the pipeline is playing sends the
pipeline to the null state and makes run return normally, without
re-raising the framework error; an end-of-stream event does the same. -/
theorem bus_error_and_eos_stop_pipeline (m d : String) (s : RunState) :
    (run true (LoopEvent.busError m d) s).1.pipelineState = GstState.null
    ∧ (run true (LoopEvent.busError m d) s).2 = Except.ok ()
    ∧ (run true LoopEvent.busEos s).1.pipelineState = GstState.null
    ∧ (run true LoopEvent.busEos s).2 = Except.ok () := by
  exact ⟨rfl, rfl, rfl, rfl⟩

/-- C10: when construction fails on an invalid model name or a missing
model file, both checks run before Gst.init and before the Gst.Pipeline
object is created, so neither framework initialization nor a pipeline
object exists after the failure. -/
theorem construct_failure_atomic
    (fs avail : String → Bool) (linkOk : String → String → Bool)
    (rd model_name : String) (b : Bool)
    (h : (selectModels b).lookup model_name = none
      ∨ ∃ rel, (selectModels b).lookup model_name = some rel
          ∧ fs (os_path_join rd rel) = false) :
    (∃ e, (ipcInit fs avail linkOk rd model_name b).1 = Except.error e)
    ∧ (ipcInit fs avail linkOk rd model_name b).2.gstInitCalled = false
    ∧ (ipcInit fs avail linkOk rd model_name b).2.pipelineCreated = false := by
  rcases h with h | ⟨rel, h1, h2⟩
  · exact ⟨⟨PyError.valueError
        (("Model ") ++ model_name ++ (" not found. Available models: ")
          ++ availableModels (selectModels b)),
      by simp only [ipcInit, h]⟩,
      by simp only [ipcInit, h], by simp only [ipcInit, h]⟩
  · refine ⟨⟨PyError.runtimeError
        (("HEF file not found at ") ++ os_path_join rd rel), ?_⟩, ?_, ?_⟩
      <;> simp [ipcInit, h1, h2]

/-- Witness for construct_failure_atomic at the unknown model name nope on
the standard variant. -/
theorem construct_failure_atomic_witness :
    ((∃ e, (ipcInit (fun _ => true) (fun _ => true) (fun _ _ => true)
        ("/install") ("nope") false).1 = Except.error e)
    ∧ (ipcInit (fun _ => true) (fun _ => true) (fun _ _ => true)
        ("/install") ("nope") false).2.gstInitCalled = false
    ∧ (ipcInit (fun _ => true) (fun _ => true) (fun _ _ => true)
        ("/install") ("nope") false).2.pipelineCreated = false) :=
  construct_failure_atomic (fun _ => true) (fun _ => true) (fun _ _ => true)
    ("/install") ("nope") false (Or.inl (by decide))

end IPCam
